import Mathlib

/-!
# Cache-aside lookup handler of `go-redis-demo` (`src/main.go`)

A shallow embedding of `getInfoHandler` (main.go lines 78-118) together with
the three collaborators it talks to:

* the Redis client `rdb` (Cache Store): `Get` and `Set` with a time-to-live;
* the SQLite handle `db` (Durable Store): `QueryRow(...).Scan(&data)`;
* the `http.ResponseWriter` the handler writes its answer to.

The collaborators are libraries, not code of the repository.  They are
modelled by their documented behaviour, each with an explicit fault switch
so that every error branch of the handler can be reached.  The handler
itself is transcribed statement by statement, including which branches end
in `return` and which do not.
-/

set_option autoImplicit false

namespace GoRedisDemo

/-! ## Go error values -/

/-- The error values the handler distinguishes.  `redisNil` is `redis.Nil`
(the cache's absence signal), `sqlErrNoRows` is `sql.ErrNoRows`, and `other`
is any other (infrastructure) error, carrying its message.  A Go `error`
that may be `nil` is an `Option GoError`. -/
inductive GoError where
  | redisNil
  | sqlErrNoRows
  | other (msg : String)
  deriving DecidableEq, Repr

/-- The call `errors.Is(err, target)` for the sentinel targets used here:
true exactly when `err` is that sentinel; `nil` matches nothing. -/
def errorsIs (err : Option GoError) (target : GoError) : Bool :=
  match err with
  | none => false
  | some e => decide (e = target)

/-! ## `time.Duration` constants (nanoseconds) -/

def Nanosecond : Nat := 1
def Microsecond : Nat := 1000 * Nanosecond
def Millisecond : Nat := 1000 * Microsecond
def Second : Nat := 1000 * Millisecond
def Minute : Nat := 60 * Second

/-! ## HTTP status codes -/

def StatusOK : Nat := 200
def StatusNotFound : Nat := 404
def StatusInternalServerError : Nat := 500

/-! ## Cache Store (Redis) -/

/-- The Redis server as seen through the client `rdb`.  `entries` are the
live string keys, each with its value and the time-to-live it was stored
with (nanoseconds).  `getFault` / `setFault`, when set, make the next `GET` /
`SET` fail with that infrastructure error. -/
structure Redis where
  entries : List (String × String × Nat)
  getFault : Option String
  setFault : Option String
  deriving DecidableEq, Repr

/-- Value stored under `key`, if any. -/
def Redis.lookup (r : Redis) (key : String) : Option String :=
  match r.entries.find? (fun e => e.1 == key) with
  | some e => some e.2.1
  | none => none

/-- The call `rdb.Get(ctx, key).Result()`: the value and a nil error on a hit,
the empty string and `redis.Nil` on absence, the empty string and the error on
a failure. -/
def Redis.Get (r : Redis) (key : String) : String × Option GoError :=
  match r.getFault with
  | some msg => ("", some (GoError.other msg))
  | none =>
    match r.lookup key with
    | some v => (v, none)
    | none => ("", some GoError.redisNil)

/-- The call `rdb.Set(ctx, key, value, ttl).Err()`: on success the entry for
`key` is overwritten unconditionally; on failure the store is unchanged. -/
def Redis.Set (r : Redis) (key value : String) (ttl : Nat) : Redis × Option GoError :=
  match r.setFault with
  | some msg => (r, some (GoError.other msg))
  | none =>
    ({ r with entries := (key, value, ttl) :: r.entries.filter (fun e => e.1 != key) }, none)

/-! ## Durable Store (SQLite table `info`) -/

/-- The table `info` as seen through `db`: `rows` pairs each id the query can
match with its `data`; `fault`, when set, makes the query fail with that
infrastructure error. -/
structure DB where
  rows : List (String × String)
  fault : Option String
  deriving DecidableEq, Repr

/-- The `data` of the row matching `id`, if any. -/
def DB.lookup (d : DB) (id : String) : Option String :=
  match d.rows.find? (fun r => r.1 == id) with
  | some r => some r.2
  | none => none

/-- The call `db.QueryRow("SELECT data FROM info WHERE id = ?", id).Scan(&data)`:
returns the scanned `data` (the zero value `""` when nothing was scanned) and
the error: nil on success, `sql.ErrNoRows` when no row matches, the
infrastructure error otherwise. -/
def DB.QueryRowScan (d : DB) (id : String) : String × Option GoError :=
  match d.fault with
  | some msg => ("", some (GoError.other msg))
  | none =>
    match d.lookup id with
    | some v => (v, none)
    | none => ("", some GoError.sqlErrNoRows)

/-! ## Response writer -/

/-- One write to the response body: a JSON object with string fields followed
by a newline (what `json.NewEncoder(w).Encode` emits for a
`map[string]string`), or a plain line of text. -/
inductive Chunk where
  | json (fields : List (String × String))
  | text (line : String)
  deriving DecidableEq, Repr

/-- An `http.ResponseWriter`: the header map, the status code once it has been
written (`none` before), and the body written so far, in order. -/
structure ResponseWriter where
  header : List (String × String)
  status : Option Nat
  body : List Chunk
  deriving DecidableEq, Repr

/-- The writer a request starts with. -/
def ResponseWriter.fresh : ResponseWriter :=
  { header := [], status := none, body := [] }

/-- The call `w.Header().Set(k, v)`. -/
def ResponseWriter.HeaderSet (w : ResponseWriter) (k v : String) : ResponseWriter :=
  { w with header := (k, v) :: w.header.filter (fun h => h.1 != k) }

/-- The call `w.WriteHeader(code)`: only the first call fixes the status. -/
def ResponseWriter.WriteHeader (w : ResponseWriter) (code : Nat) : ResponseWriter :=
  match w.status with
  | some _ => w
  | none => { w with status := some code }

/-- The call `w.Write(...)`: writes the header with `200 OK` if it has not been
written yet, then appends to the body. -/
def ResponseWriter.Write (w : ResponseWriter) (c : Chunk) : ResponseWriter :=
  let w1 := w.WriteHeader StatusOK
  { w1 with body := w1.body ++ [c] }

/-- The call `http.Error(w, error, code)`. -/
def httpError (w : ResponseWriter) (error : String) (code : Nat) : ResponseWriter :=
  let w1 := w.HeaderSet "Content-Type" "text/plain; charset=utf-8"
  let w2 := w1.HeaderSet "X-Content-Type-Options" "nosniff"
  let w3 := w2.WriteHeader code
  w3.Write (Chunk.text (error ++ "\n"))

/-- The call `json.NewEncoder(w).Encode(response)` for a `map[string]string`. -/
def jsonEncode (w : ResponseWriter) (response : List (String × String)) : ResponseWriter :=
  w.Write (Chunk.json response)

/-- The data payloads in a response body: the value of field `data` of every
JSON object written, in order. -/
def dataPayloads (body : List Chunk) : List String :=
  body.filterMap (fun c =>
    match c with
    | Chunk.json fields =>
      (match fields.find? (fun f => f.1 == "data") with
       | some f => some f.2
       | none => none)
    | Chunk.text _ => none)

/-! ## The handler's environment -/

/-- A call made to one of the two stores. -/
inductive Call where
  | redisGet (key : String)
  | dbQuery (id : String)
  | redisSet (key value : String) (ttl : Nat)
  deriving DecidableEq, Repr

/-- What a run of the handler reads and changes: the package-level handles
`rdb` and `db`, the request's response writer `w`, and the log of store calls
made so far. -/
structure Env where
  rdb : Redis
  db : DB
  w : ResponseWriter
  calls : List Call
  deriving DecidableEq, Repr

/-- The environment at the start of a request: a fresh writer, no call made. -/
def Env.request (rdb : Redis) (db : DB) : Env :=
  { rdb := rdb, db := db, w := ResponseWriter.fresh, calls := [] }

/-- Logged `rdb.Get`. -/
def Env.rdbGet (e : Env) (key : String) : (String × Option GoError) × Env :=
  (e.rdb.Get key, { e with calls := e.calls ++ [Call.redisGet key] })

/-- Logged `db.QueryRow(...).Scan`. -/
def Env.dbQueryRowScan (e : Env) (id : String) : (String × Option GoError) × Env :=
  (e.db.QueryRowScan id, { e with calls := e.calls ++ [Call.dbQuery id] })

/-- Logged `rdb.Set`. -/
def Env.rdbSet (e : Env) (key value : String) (ttl : Nat) : Option GoError × Env :=
  ((e.rdb.Set key value ttl).2,
   { e with rdb := (e.rdb.Set key value ttl).1,
            calls := e.calls ++ [Call.redisSet key value ttl] })

/-- How a block of the handler ends: by a `return` statement, or by running
off its end into the statements that follow it. -/
inductive Flow where
  | returned (e : Env)
  | continues (e : Env)
  deriving DecidableEq, Repr

/-- Lines 85-112 of `getInfoHandler`: the `if errors.Is(err, redis.Nil) ... else
if err != nil ...` statement.  The cache-miss block returns on its three error
paths; after encoding the response on its success path it has no `return`. -/
def cacheBranch (e : Env) (id cacheKey : String) (err : Option GoError) : Flow :=
  if errorsIs err GoError.redisNil then
    -- Cache miss, retrieve data from SQLite
    let q := e.dbQueryRowScan id
    let data := q.1.1
    let err1 := q.1.2
    let e1 := q.2
    if err1 ≠ none then
      if errorsIs err1 GoError.sqlErrNoRows then
        Flow.returned { e1 with w := httpError e1.w "Data not found" StatusNotFound }
      else
        Flow.returned
          { e1 with w := httpError e1.w "Failed to query database" StatusInternalServerError }
    else
      -- Store data in Redis cache
      let s := e1.rdbSet cacheKey data (10 * Minute)
      let err2 := s.1
      let e2 := s.2
      if err2 ≠ none then
        Flow.returned
          { e2 with w := httpError e2.w "Failed to store data in Redis" StatusInternalServerError }
      else
        -- Return data as JSON response
        let response := [("data", data)]
        let w1 := e2.w.HeaderSet "Content-Type" "application/json"
        Flow.continues { e2 with w := jsonEncode w1 response }
  else if err ≠ none then
    Flow.returned
      { e with w := httpError e.w "Failed to check Redis cache" StatusInternalServerError }
  else
    Flow.continues e

/-- The function `getInfoHandler` (main.go lines 78-118), for the path
parameter `id`. -/
def getInfoHandler (e : Env) (id : String) : Env :=
  -- Check Redis cache first
  let cacheKey := "info:" ++ id
  let g := e.rdbGet cacheKey
  let cachedData := g.1.1
  let err := g.1.2
  match cacheBranch g.2 id cacheKey err with
  | Flow.returned e1 => e1
  | Flow.continues e1 =>
    -- Cache hit, return cached data as JSON response
    let response := [("data", cachedData)]
    let w1 := e1.w.HeaderSet "Content-Type" "application/json"
    { e1 with w := jsonEncode w1 response }

/-- The cache writes among a list of store calls, as (key, value, ttl). -/
def cacheWrites (calls : List Call) : List (String × String × Nat) :=
  calls.filterMap (fun c =>
    match c with
    | Call.redisSet k v ttl => some (k, v, ttl)
    | _ => none)

/-- The Durable Store queries among a list of store calls. -/
def dbQueries (calls : List Call) : List String :=
  calls.filterMap (fun c =>
    match c with
    | Call.dbQuery id => some id
    | _ => none)

/-- Serving a sequence of requests one after the other, each with a fresh
writer; between requests the environment may switch the stores' faults.  A
request is (id, cache read fault, cache write fault, durable store fault).
Returns the stores after the last request. -/
def serveAll (rdb : Redis) (db : DB) :
    List (String × Option String × Option String × Option String) → Redis × DB
  | [] => (rdb, db)
  | (id, gf, sf, df) :: rest =>
    let e := getInfoHandler
      (Env.request { rdb with getFault := gf, setFault := sf } { db with fault := df }) id
    serveAll e.rdb e.db rest

/-- Every cache entry under a key `"info:" ++ id` holds the value the Durable
Store holds for `id`. -/
def CacheDerived (rdb : Redis) (db : DB) : Prop :=
  ∀ id v, rdb.lookup ("info:" ++ id) = some v → db.lookup id = some v

/-- Every cache entry, under whatever key, is a copy of a Durable Store row:
its key is `"info:" ++ id` for an id whose row holds the same value. -/
def CacheFromDurable (rdb : Redis) (db : DB) : Prop :=
  ∀ k v, rdb.lookup k = some v → ∃ id, k = "info:" ++ id ∧ db.lookup id = some v

/-! ## Store lemmas -/

theorem ten_minutes : 10 * Minute = 600 * Second := by
  simp [Minute]; ring

theorem ten_minutes_ns : 10 * Minute = 600000000000 := by
  simp [Minute, Second, Millisecond, Microsecond, Nanosecond]

/-- A cache read that reports absence came from a working cache without the key. -/
theorem Redis.get_nil (r : Redis) (key : String)
    (h : (r.Get key).2 = some GoError.redisNil) :
    r.getFault = none ∧ r.lookup key = none ∧ r.Get key = ("", some GoError.redisNil) := by
  unfold Redis.Get at h ⊢
  cases hf : r.getFault with
  | some msg => simp [hf] at h
  | none =>
    cases hl : r.lookup key with
    | some v => simp [hf, hl] at h
    | none => simp

/-- A durable read with a nil error returned the row it found. -/
theorem DB.query_nil_err (d : DB) (id : String) (h : (d.QueryRowScan id).2 = none) :
    d.lookup id = some (d.QueryRowScan id).1 := by
  unfold DB.QueryRowScan at h ⊢
  cases hf : d.fault with
  | some msg => simp [hf] at h
  | none =>
    cases hl : d.lookup id with
    | some u => simp
    | none => simp [hf, hl] at h

/-- A successful cache write replaces the entry of its key. -/
theorem Redis.set_ok (r : Redis) (key value : String) (ttl : Nat)
    (h : (r.Set key value ttl).2 = none) :
    (r.Set key value ttl).1 =
      { r with entries := (key, value, ttl) :: r.entries.filter (fun e => e.1 != key) } := by
  unfold Redis.Set at h ⊢
  cases hf : r.setFault with
  | some msg => simp [hf] at h
  | none => simp

/-- A failed cache write leaves the cache as it was. -/
theorem Redis.set_err (r : Redis) (key value : String) (ttl : Nat)
    (h : (r.Set key value ttl).2 ≠ none) :
    (r.Set key value ttl).1 = r := by
  unfold Redis.Set at h ⊢
  cases hf : r.setFault with
  | some msg => simp
  | none => simp [hf] at h

theorem find_filter_ne (l : List (String × String × Nat)) (key k : String) (hk : k ≠ key) :
    (l.filter (fun e => e.1 != key)).find? (fun e => e.1 == k) = l.find? (fun e => e.1 == k) := by
  induction l with
  | nil => rfl
  | cons a t ih =>
    by_cases h1 : a.1 = key
    · have h2 : ¬ a.1 = k := fun h => hk (h.symm.trans h1)
      have e1 : (a.1 != key) = false := by simp [h1]
      have e2 : (a.1 == k) = false := by simp [h2]
      rw [List.filter_cons_of_neg (by simp [e1]), List.find?_cons_of_neg _ (by simp [e2])]
      exact ih
    · have e1 : (a.1 != key) = true := by simp [h1]
      rw [List.filter_cons_of_pos (by simp [e1])]
      by_cases h2 : a.1 = k
      · have e2 : (a.1 == k) = true := by simp [h2]
        rw [List.find?_cons_of_pos _ (by simp [e2]), List.find?_cons_of_pos _ (by simp [e2])]
      · have e2 : (a.1 == k) = false := by simp [h2]
        rw [List.find?_cons_of_neg _ (by simp [e2]), List.find?_cons_of_neg _ (by simp [e2])]
        exact ih

/-- After an overwrite, the key reads back the value written. -/
theorem Redis.lookup_overwrite_same (es : List (String × String × Nat)) (gf sf : Option String)
    (key value : String) (ttl : Nat) :
    Redis.lookup ⟨(key, value, ttl) :: es.filter (fun e => e.1 != key), gf, sf⟩ key
      = some value := by
  simp [Redis.lookup, List.find?]

/-- After an overwrite, every other key reads as before. -/
theorem Redis.lookup_overwrite_other (es : List (String × String × Nat)) (gf sf : Option String)
    (key value k : String) (ttl : Nat) (hk : k ≠ key) :
    Redis.lookup ⟨(key, value, ttl) :: es.filter (fun e => e.1 != key), gf, sf⟩ k
      = Redis.lookup ⟨es, gf, sf⟩ k := by
  have h2 : ¬ key = k := fun h => hk h.symm
  unfold Redis.lookup
  show (match List.find? (fun e => e.1 == k)
      ((key, value, ttl) :: es.filter (fun e => e.1 != key)) with
    | some e => some e.2.1
    | none => none) = _
  rw [List.find?_cons_of_neg _ (by simp [h2]), find_filter_ne _ _ _ hk]

theorem cacheKey_injective (a b : String) (h : "info:" ++ a = "info:" ++ b) : a = b := by
  have h1 := congrArg String.data h
  simp only [String.data_append] at h1
  exact String.ext (List.append_cancel_left h1)

/-! ## The paths of the handler -/

/-- Cache hit: the handler's whole effect. -/
theorem handler_hit (rdb : Redis) (db : DB) (id v : String)
    (hget : rdb.Get ("info:" ++ id) = (v, none)) :
    getInfoHandler (Env.request rdb db) id =
      { rdb := rdb, db := db,
        w := { header := [("Content-Type", "application/json")],
               status := some StatusOK,
               body := [Chunk.json [("data", v)]] },
        calls := [Call.redisGet ("info:" ++ id)] } := by
  simp [getInfoHandler, cacheBranch, Env.request, Env.rdbGet, hget, errorsIs, jsonEncode,
    ResponseWriter.Write, ResponseWriter.WriteHeader, ResponseWriter.HeaderSet,
    ResponseWriter.fresh]

/-- Cache read error other than absence: the handler's whole effect. -/
theorem handler_cache_error (rdb : Redis) (db : DB) (id : String) (err : GoError)
    (hget : (rdb.Get ("info:" ++ id)).2 = some err) (hne : err ≠ GoError.redisNil) :
    getInfoHandler (Env.request rdb db) id =
      { rdb := rdb, db := db,
        w := httpError ResponseWriter.fresh "Failed to check Redis cache"
               StatusInternalServerError,
        calls := [Call.redisGet ("info:" ++ id)] } := by
  simp [getInfoHandler, cacheBranch, Env.request, Env.rdbGet, hget, errorsIs, hne]

/-- Cache miss, no row: the handler's whole effect. -/
theorem handler_not_found (rdb : Redis) (db : DB) (id : String)
    (hget : (rdb.Get ("info:" ++ id)).2 = some GoError.redisNil)
    (hdb : (db.QueryRowScan id).2 = some GoError.sqlErrNoRows) :
    getInfoHandler (Env.request rdb db) id =
      { rdb := rdb, db := db,
        w := httpError ResponseWriter.fresh "Data not found" StatusNotFound,
        calls := [Call.redisGet ("info:" ++ id), Call.dbQuery id] } := by
  simp [getInfoHandler, cacheBranch, Env.request, Env.rdbGet, Env.dbQueryRowScan, hget, hdb,
    errorsIs]

/-- Cache miss, durable read error: the handler's whole effect. -/
theorem handler_db_error (rdb : Redis) (db : DB) (id : String) (err : GoError)
    (hget : (rdb.Get ("info:" ++ id)).2 = some GoError.redisNil)
    (hdb : (db.QueryRowScan id).2 = some err) (hne : err ≠ GoError.sqlErrNoRows) :
    getInfoHandler (Env.request rdb db) id =
      { rdb := rdb, db := db,
        w := httpError ResponseWriter.fresh "Failed to query database"
               StatusInternalServerError,
        calls := [Call.redisGet ("info:" ++ id), Call.dbQuery id] } := by
  simp [getInfoHandler, cacheBranch, Env.request, Env.rdbGet, Env.dbQueryRowScan, hget, hdb,
    errorsIs, hne]

/-- Cache miss, row found, cache write error: the handler's whole effect. -/
theorem handler_set_error (rdb : Redis) (db : DB) (id v : String) (err : GoError)
    (hget : (rdb.Get ("info:" ++ id)).2 = some GoError.redisNil)
    (hdb : db.QueryRowScan id = (v, none))
    (hset : (rdb.Set ("info:" ++ id) v (10 * Minute)).2 = some err) :
    getInfoHandler (Env.request rdb db) id =
      { rdb := rdb, db := db,
        w := httpError ResponseWriter.fresh "Failed to store data in Redis"
               StatusInternalServerError,
        calls := [Call.redisGet ("info:" ++ id), Call.dbQuery id,
                  Call.redisSet ("info:" ++ id) v (10 * Minute)] } := by
  have hr : (rdb.Set ("info:" ++ id) v (10 * Minute)).1 = rdb :=
    Redis.set_err rdb _ _ _ (by simp [hset])
  simp [getInfoHandler, cacheBranch, Env.request, Env.rdbGet, Env.dbQueryRowScan, Env.rdbSet,
    hget, hdb, hset, hr, errorsIs]

/-- Cache miss, row found, cache write succeeds: the handler's whole effect.
The miss block encodes `data` and runs on into the statements after the `if`,
which encode `cachedData` (the empty string a miss returns) as well. -/
theorem handler_miss_store (rdb : Redis) (db : DB) (id v : String)
    (hget : (rdb.Get ("info:" ++ id)).2 = some GoError.redisNil)
    (hdb : db.QueryRowScan id = (v, none))
    (hset : (rdb.Set ("info:" ++ id) v (10 * Minute)).2 = none) :
    getInfoHandler (Env.request rdb db) id =
      { rdb := { rdb with entries := ("info:" ++ id, v, 10 * Minute) ::
                   rdb.entries.filter (fun e => e.1 != "info:" ++ id) },
        db := db,
        w := { header := [("Content-Type", "application/json")],
               status := some StatusOK,
               body := [Chunk.json [("data", v)], Chunk.json [("data", "")]] },
        calls := [Call.redisGet ("info:" ++ id), Call.dbQuery id,
                  Call.redisSet ("info:" ++ id) v (10 * Minute)] } := by
  have hr := Redis.set_ok rdb _ _ _ hset
  have hg := (Redis.get_nil rdb _ hget).2.2
  simp [getInfoHandler, cacheBranch, Env.request, Env.rdbGet, Env.dbQueryRowScan, Env.rdbSet,
    hg, hdb, hset, hr, errorsIs, jsonEncode,
    ResponseWriter.Write, ResponseWriter.WriteHeader, ResponseWriter.HeaderSet,
    ResponseWriter.fresh]

/-- What any run of the handler does to the two stores, whatever path it takes:
the Durable Store is untouched; at most one cache write is attempted, under the
key `"info:" ++ id` with a time-to-live of `10 * Minute`; and the cache is
either untouched or has that key overwritten with the value the Durable Store
holds for `id`. -/
theorem handler_effect (rdb : Redis) (db : DB) (id : String) :
    (getInfoHandler (Env.request rdb db) id).db = db ∧
    (cacheWrites (getInfoHandler (Env.request rdb db) id).calls = [] ∨
      ∃ v, cacheWrites (getInfoHandler (Env.request rdb db) id).calls =
        [("info:" ++ id, v, 10 * Minute)]) ∧
    ((getInfoHandler (Env.request rdb db) id).rdb = rdb ∨
      ∃ v, db.lookup id = some v ∧
        (getInfoHandler (Env.request rdb db) id).rdb =
          { rdb with entries := ("info:" ++ id, v, 10 * Minute) ::
              rdb.entries.filter (fun e => e.1 != "info:" ++ id) }) := by
  cases hg : (rdb.Get ("info:" ++ id)).2 with
  | none =>
    have hget : rdb.Get ("info:" ++ id) = ((rdb.Get ("info:" ++ id)).1, none) := by
      rw [← hg]
    rw [handler_hit rdb db id _ hget]
    simp [cacheWrites]
  | some err =>
    by_cases hnil : err = GoError.redisNil
    · subst hnil
      cases hq : (db.QueryRowScan id).2 with
      | none =>
        have hdb : db.QueryRowScan id = ((db.QueryRowScan id).1, none) := by
          rw [← hq]
        cases hs : (rdb.Set ("info:" ++ id) (db.QueryRowScan id).1 (10 * Minute)).2 with
        | none =>
          rw [handler_miss_store rdb db id _ hg hdb hs]
          exact ⟨rfl, Or.inr ⟨(db.QueryRowScan id).1, by simp [cacheWrites]⟩,
            Or.inr ⟨(db.QueryRowScan id).1, DB.query_nil_err db id hq, rfl⟩⟩
        | some err2 =>
          rw [handler_set_error rdb db id _ err2 hg hdb hs]
          exact ⟨rfl, Or.inr ⟨(db.QueryRowScan id).1, by simp [cacheWrites]⟩, Or.inl rfl⟩
      | some err1 =>
        by_cases hno : err1 = GoError.sqlErrNoRows
        · subst hno
          rw [handler_not_found rdb db id hg hq]
          simp [cacheWrites]
        · rw [handler_db_error rdb db id err1 hg hq hno]
          simp [cacheWrites]
    · rw [handler_cache_error rdb db id err hg hnil]
      simp [cacheWrites]

/-- The handler keeps `CacheFromDurable`; faults of the stores do not matter. -/
theorem handler_keeps_from_durable (rdb : Redis) (db : DB) (id : String)
    (h : CacheFromDurable rdb db) :
    CacheFromDurable (getInfoHandler (Env.request rdb db) id).rdb db := by
  rcases (handler_effect rdb db id).2.2 with h1 | ⟨v, hv, h1⟩
  · rw [h1]; exact h
  · rw [h1]
    intro k u hk
    by_cases hkk : k = "info:" ++ id
    · subst hkk
      rw [Redis.lookup_overwrite_same] at hk
      cases hk
      exact ⟨id, rfl, hv⟩
    · rw [Redis.lookup_overwrite_other _ _ _ _ _ _ _ hkk] at hk
      exact h k u hk

/-- The handler keeps `CacheDerived`. -/
theorem handler_keeps_derived (rdb : Redis) (db : DB) (id : String)
    (h : CacheDerived rdb db) :
    CacheDerived (getInfoHandler (Env.request rdb db) id).rdb db := by
  rcases (handler_effect rdb db id).2.2 with h1 | ⟨v, hv, h1⟩
  · rw [h1]; exact h
  · rw [h1]
    intro i u hk
    by_cases hkk : i = id
    · subst hkk
      rw [Redis.lookup_overwrite_same] at hk
      cases hk
      exact hv
    · have hne : "info:" ++ i ≠ "info:" ++ id := fun e => hkk (cacheKey_injective _ _ e)
      rw [Redis.lookup_overwrite_other _ _ _ _ _ _ _ hne] at hk
      exact h i u hk

/-- Serving any sequence of requests keeps `CacheFromDurable` and the rows of
the Durable Store. -/
theorem serveAll_keeps (reqs : List (String × Option String × Option String × Option String)) :
    ∀ (rdb : Redis) (db : DB), CacheFromDurable rdb db →
      CacheFromDurable (serveAll rdb db reqs).1 db ∧ (serveAll rdb db reqs).2.rows = db.rows := by
  induction reqs with
  | nil => intro rdb db h; exact ⟨h, rfl⟩
  | cons r rest ih =>
    intro rdb db h
    obtain ⟨id, gf, sf, df⟩ := r
    have h0 : CacheFromDurable { rdb with getFault := gf, setFault := sf }
        { db with fault := df } := h
    have h1 := handler_keeps_from_durable _ _ id h0
    have h2 := (handler_effect { rdb with getFault := gf, setFault := sf }
      { db with fault := df } id).1
    have h3 := ih (getInfoHandler (Env.request { rdb with getFault := gf, setFault := sf }
      { db with fault := df }) id).rdb (getInfoHandler (Env.request
      { rdb with getFault := gf, setFault := sf } { db with fault := df }) id).db
      (by rw [h2]; exact h1)
    rw [h2] at h3
    have e1 : serveAll rdb db ((id, gf, sf, df) :: rest) =
        serveAll (getInfoHandler (Env.request { rdb with getFault := gf, setFault := sf }
          { db with fault := df }) id).rdb { db with fault := df } rest := by
      rw [serveAll, h2]
    rw [e1]
    exact ⟨h3.1, h3.2⟩

/-! ## The claims -/

/-- Claim C1. Cache hit short-circuit: when the cache read for key
`"info:" ++ id` succeeds with `v`, the handler answers `200 OK` with exactly one
payload whose field `data` is `v`; the only store call it makes is that cache
read (no Durable Store query, no cache write), and both stores are left
exactly as they were. -/
theorem cache_hit_short_circuit (rdb : Redis) (db : DB) (id v : String)
    (hget : rdb.Get ("info:" ++ id) = (v, none)) :
    (getInfoHandler (Env.request rdb db) id).w.status = some StatusOK ∧
    (getInfoHandler (Env.request rdb db) id).w.body = [Chunk.json [("data", v)]] ∧
    dataPayloads (getInfoHandler (Env.request rdb db) id).w.body = [v] ∧
    (getInfoHandler (Env.request rdb db) id).calls = [Call.redisGet ("info:" ++ id)] ∧
    dbQueries (getInfoHandler (Env.request rdb db) id).calls = [] ∧
    cacheWrites (getInfoHandler (Env.request rdb db) id).calls = [] ∧
    (getInfoHandler (Env.request rdb db) id).rdb = rdb ∧
    (getInfoHandler (Env.request rdb db) id).db = db := by
  rw [handler_hit rdb db id v hget]
  simp [dataPayloads, dbQueries, cacheWrites]

/-- Witness of C1: the cache holds `"x"` under `"info:7"` while the Durable
Store holds a different value for `"7"`; the cached value is served. -/
theorem cache_hit_short_circuit_witness :
    Redis.Get ⟨[("info:7", "x", 5)], none, none⟩ ("info:" ++ "7") = ("x", none) ∧
    (getInfoHandler (Env.request ⟨[("info:7", "x", 5)], none, none⟩ ⟨[("7", "y")], none⟩)
      "7").w.body = [Chunk.json [("data", "x")]] ∧
    dbQueries (getInfoHandler (Env.request ⟨[("info:7", "x", 5)], none, none⟩
      ⟨[("7", "y")], none⟩) "7").calls = [] :=
  ⟨by decide,
   (cache_hit_short_circuit ⟨[("info:7", "x", 5)], none, none⟩ ⟨[("7", "y")], none⟩ "7" "x"
      (by decide)).2.1,
   (cache_hit_short_circuit ⟨[("info:7", "x", 5)], none, none⟩ ⟨[("7", "y")], none⟩ "7" "x"
      (by decide)).2.2.2.2.1⟩

/-- Claim C2, evaluated at a failing input (empty cache, Durable Store holding
`"a"` for `"1"`, both stores working): the premises of the claim hold, yet the
response body is two payloads, `data = "a"` followed by `data = ""`, which is
not the body a cache hit on `"a"` produces. -/
theorem miss_store_writes_two_payloads :
    (Redis.Get ⟨[], none, none⟩ ("info:" ++ "1")).2 = some GoError.redisNil ∧
    DB.QueryRowScan ⟨[("1", "a")], none⟩ "1" = ("a", none) ∧
    (Redis.Set ⟨[], none, none⟩ ("info:" ++ "1") "a" (10 * Minute)).2 = none ∧
    (getInfoHandler (Env.request ⟨[], none, none⟩ ⟨[("1", "a")], none⟩) "1").w.body =
      [Chunk.json [("data", "a")], Chunk.json [("data", "")]] ∧
    (getInfoHandler (Env.request ⟨[("info:1", "a", 10 * Minute)], none, none⟩
      ⟨[("1", "a")], none⟩) "1").w.body = [Chunk.json [("data", "a")]] ∧
    (getInfoHandler (Env.request ⟨[], none, none⟩ ⟨[("1", "a")], none⟩) "1").w.body ≠
      (getInfoHandler (Env.request ⟨[("info:1", "a", 10 * Minute)], none, none⟩
        ⟨[("1", "a")], none⟩) "1").w.body := by
  decide

/-- Claim C3. Miss populates cache: when the cache read reports absence, the
Durable Store returns `v` for `id` and the cache write succeeds, the handler
answers `200 OK`, and afterwards a direct read of the cache under
`"info:" ++ id` is a hit with value `v`, while every other key reads exactly
as before. -/
theorem miss_populates_cache (rdb : Redis) (db : DB) (id v : String)
    (hget : (rdb.Get ("info:" ++ id)).2 = some GoError.redisNil)
    (hdb : db.QueryRowScan id = (v, none))
    (hset : (rdb.Set ("info:" ++ id) v (10 * Minute)).2 = none) :
    (getInfoHandler (Env.request rdb db) id).w.status = some StatusOK ∧
    (getInfoHandler (Env.request rdb db) id).rdb.Get ("info:" ++ id) = (v, none) ∧
    ∀ k, k ≠ "info:" ++ id →
      (getInfoHandler (Env.request rdb db) id).rdb.lookup k = rdb.lookup k ∧
      (getInfoHandler (Env.request rdb db) id).rdb.Get k = rdb.Get k := by
  rw [handler_miss_store rdb db id v hget hdb hset]
  have hf := (Redis.get_nil rdb _ hget).1
  refine ⟨rfl, ?_, ?_⟩
  · have hl := Redis.lookup_overwrite_same rdb.entries rdb.getFault rdb.setFault
      ("info:" ++ id) v (10 * Minute)
    rw [hf] at hl
    simp only [Redis.Get, hl, hf]
  · intro k hk
    have hl := Redis.lookup_overwrite_other rdb.entries rdb.getFault rdb.setFault
      ("info:" ++ id) v k (10 * Minute) hk
    refine ⟨hl, ?_⟩
    rw [hf] at hl
    simp only [Redis.Get, hf]
    rw [hl]
    simp only [Redis.lookup]

/-- Witness of C3: the cache holds only another key; `"2"` is in the Durable
Store. -/
theorem miss_populates_cache_witness :
    (Redis.Get ⟨[("info:1", "a", 5)], none, none⟩ ("info:" ++ "2")).2 = some GoError.redisNil ∧
    DB.QueryRowScan ⟨[("1", "a"), ("2", "b")], none⟩ "2" = ("b", none) ∧
    (Redis.Set ⟨[("info:1", "a", 5)], none, none⟩ ("info:" ++ "2") "b" (10 * Minute)).2 = none ∧
    (getInfoHandler (Env.request ⟨[("info:1", "a", 5)], none, none⟩
      ⟨[("1", "a"), ("2", "b")], none⟩) "2").rdb.Get ("info:" ++ "2") = ("b", none) :=
  ⟨by decide, by decide, by decide,
   (miss_populates_cache ⟨[("info:1", "a", 5)], none, none⟩ ⟨[("1", "a"), ("2", "b")], none⟩
      "2" "b" (by decide) (by decide) (by decide)).2.1⟩

/-- Claim C4. Not-found propagation: when the cache read reports absence and
the Durable Store reports no record, the handler answers `404` (which is not
the internal-failure status), writes only the error line and no data payload,
and makes no cache write: the cache is as it was. -/
theorem not_found_propagation (rdb : Redis) (db : DB) (id : String)
    (hget : (rdb.Get ("info:" ++ id)).2 = some GoError.redisNil)
    (hdb : (db.QueryRowScan id).2 = some GoError.sqlErrNoRows) :
    (getInfoHandler (Env.request rdb db) id).w.status = some StatusNotFound ∧
    StatusNotFound = 404 ∧ StatusNotFound ≠ StatusInternalServerError ∧
    (getInfoHandler (Env.request rdb db) id).w.body = [Chunk.text "Data not found\n"] ∧
    dataPayloads (getInfoHandler (Env.request rdb db) id).w.body = [] ∧
    cacheWrites (getInfoHandler (Env.request rdb db) id).calls = [] ∧
    (getInfoHandler (Env.request rdb db) id).rdb = rdb := by
  rw [handler_not_found rdb db id hget hdb]
  exact ⟨rfl, rfl, by decide, rfl, rfl, rfl, rfl⟩

/-- Witness of C4: an id that neither store knows. -/
theorem not_found_propagation_witness :
    (Redis.Get ⟨[("info:1", "a", 5)], none, none⟩ ("info:" ++ "9")).2 = some GoError.redisNil ∧
    (DB.QueryRowScan ⟨[("1", "a")], none⟩ "9").2 = some GoError.sqlErrNoRows ∧
    (getInfoHandler (Env.request ⟨[("info:1", "a", 5)], none, none⟩ ⟨[("1", "a")], none⟩)
      "9").w.status = some StatusNotFound :=
  ⟨by decide, by decide,
   (not_found_propagation ⟨[("info:1", "a", 5)], none, none⟩ ⟨[("1", "a")], none⟩ "9"
      (by decide) (by decide)).1⟩

/-- Claim C5. Durable Store failure isolation: when the cache read reports
absence and the Durable Store read fails with an error other than
`sql.ErrNoRows`, the handler answers `500` (not `404`), writes only the error
line and no data payload, and makes no cache write: the cache is as it was. -/
theorem durable_failure_isolation (rdb : Redis) (db : DB) (id : String) (err : GoError)
    (hget : (rdb.Get ("info:" ++ id)).2 = some GoError.redisNil)
    (hdb : (db.QueryRowScan id).2 = some err) (hne : err ≠ GoError.sqlErrNoRows) :
    (getInfoHandler (Env.request rdb db) id).w.status = some StatusInternalServerError ∧
    StatusInternalServerError = 500 ∧ StatusInternalServerError ≠ StatusNotFound ∧
    (getInfoHandler (Env.request rdb db) id).w.body =
      [Chunk.text "Failed to query database\n"] ∧
    dataPayloads (getInfoHandler (Env.request rdb db) id).w.body = [] ∧
    cacheWrites (getInfoHandler (Env.request rdb db) id).calls = [] ∧
    (getInfoHandler (Env.request rdb db) id).rdb = rdb := by
  rw [handler_db_error rdb db id err hget hdb hne]
  exact ⟨rfl, rfl, by decide, rfl, rfl, rfl, rfl⟩

/-- Witness of C5: the Durable Store holds the row but is locked. -/
theorem durable_failure_isolation_witness :
    (Redis.Get ⟨[], none, none⟩ ("info:" ++ "1")).2 = some GoError.redisNil ∧
    (DB.QueryRowScan ⟨[("1", "a")], some "database is locked"⟩ "1").2 =
      some (GoError.other "database is locked") ∧
    GoError.other "database is locked" ≠ GoError.sqlErrNoRows ∧
    (getInfoHandler (Env.request ⟨[], none, none⟩ ⟨[("1", "a")], some "database is locked"⟩)
      "1").w.status = some StatusInternalServerError :=
  ⟨by decide, by decide, by decide,
   (durable_failure_isolation ⟨[], none, none⟩ ⟨[("1", "a")], some "database is locked"⟩ "1"
      (GoError.other "database is locked") (by decide) (by decide) (by decide)).1⟩

/-- Claim C6. Strict cache-write policy: when the cache read reports absence,
the Durable Store returns `v` and the cache write fails, the handler answers
`500` and writes only the error line: no data payload, so `v` is not served. -/
theorem cache_write_failure_fails_request (rdb : Redis) (db : DB) (id v : String)
    (err : GoError)
    (hget : (rdb.Get ("info:" ++ id)).2 = some GoError.redisNil)
    (hdb : db.QueryRowScan id = (v, none))
    (hset : (rdb.Set ("info:" ++ id) v (10 * Minute)).2 = some err) :
    (getInfoHandler (Env.request rdb db) id).w.status = some StatusInternalServerError ∧
    StatusInternalServerError = 500 ∧
    (getInfoHandler (Env.request rdb db) id).w.body =
      [Chunk.text "Failed to store data in Redis\n"] ∧
    dataPayloads (getInfoHandler (Env.request rdb db) id).w.body = [] := by
  rw [handler_set_error rdb db id v err hget hdb hset]
  exact ⟨rfl, rfl, rfl, rfl⟩

/-- Witness of C6: the cache accepts reads but refuses writes. -/
theorem cache_write_failure_fails_request_witness :
    (Redis.Get ⟨[], none, some "READONLY"⟩ ("info:" ++ "1")).2 = some GoError.redisNil ∧
    DB.QueryRowScan ⟨[("1", "a")], none⟩ "1" = ("a", none) ∧
    (Redis.Set ⟨[], none, some "READONLY"⟩ ("info:" ++ "1") "a" (10 * Minute)).2 =
      some (GoError.other "READONLY") ∧
    dataPayloads (getInfoHandler (Env.request ⟨[], none, some "READONLY"⟩
      ⟨[("1", "a")], none⟩) "1").w.body = [] :=
  ⟨by decide, by decide, by decide,
   (cache_write_failure_fails_request ⟨[], none, some "READONLY"⟩ ⟨[("1", "a")], none⟩ "1" "a"
      (GoError.other "READONLY") (by decide) (by decide) (by decide)).2.2.2⟩

/-- Claim C7. Cache read failure does not fall through: when the cache read
fails with an error that is not `redis.Nil`, the handler answers `500` and
writes only the error line (no data payload); the only store call it makes is
that cache read (no Durable Store query, no cache write) and both stores are
as they were. -/
theorem cache_read_failure_no_fallthrough (rdb : Redis) (db : DB) (id : String)
    (err : GoError)
    (hget : (rdb.Get ("info:" ++ id)).2 = some err) (hne : err ≠ GoError.redisNil) :
    (getInfoHandler (Env.request rdb db) id).w.status = some StatusInternalServerError ∧
    StatusInternalServerError = 500 ∧
    (getInfoHandler (Env.request rdb db) id).w.body =
      [Chunk.text "Failed to check Redis cache\n"] ∧
    dataPayloads (getInfoHandler (Env.request rdb db) id).w.body = [] ∧
    (getInfoHandler (Env.request rdb db) id).calls = [Call.redisGet ("info:" ++ id)] ∧
    dbQueries (getInfoHandler (Env.request rdb db) id).calls = [] ∧
    cacheWrites (getInfoHandler (Env.request rdb db) id).calls = [] ∧
    (getInfoHandler (Env.request rdb db) id).rdb = rdb ∧
    (getInfoHandler (Env.request rdb db) id).db = db := by
  rw [handler_cache_error rdb db id err hget hne]
  exact ⟨rfl, rfl, rfl, rfl, rfl, rfl, rfl, rfl, rfl⟩

/-- Witness of C7: the cache is unreachable although it and the Durable Store
both hold the value. -/
theorem cache_read_failure_no_fallthrough_witness :
    (Redis.Get ⟨[("info:1", "a", 5)], some "connection refused", none⟩ ("info:" ++ "1")).2 =
      some (GoError.other "connection refused") ∧
    GoError.other "connection refused" ≠ GoError.redisNil ∧
    (getInfoHandler (Env.request ⟨[("info:1", "a", 5)], some "connection refused", none⟩
      ⟨[("1", "a")], none⟩) "1").w.status = some StatusInternalServerError ∧
    dataPayloads (getInfoHandler (Env.request
      ⟨[("info:1", "a", 5)], some "connection refused", none⟩
      ⟨[("1", "a")], none⟩) "1").w.body = [] :=
  ⟨by decide, by decide,
   (cache_read_failure_no_fallthrough ⟨[("info:1", "a", 5)], some "connection refused", none⟩
      ⟨[("1", "a")], none⟩ "1" (GoError.other "connection refused")
      (by decide) (by decide)).1,
   (cache_read_failure_no_fallthrough ⟨[("info:1", "a", 5)], some "connection refused", none⟩
      ⟨[("1", "a")], none⟩ "1" (GoError.other "connection refused")
      (by decide) (by decide)).2.2.2.1⟩

/-- Claim C8, evaluated at a failing input (empty cache, Durable Store holding
`"hello"` for `"42"`, both stores working): the first call takes the miss
path and populates the cache, the second call takes the hit path, and the two
responses differ: the first carries the payloads `"hello"` and `""`, the
second only `"hello"`. -/
theorem relookup_responses_differ :
    (getInfoHandler (Env.request ⟨[], none, none⟩ ⟨[("42", "hello")], none⟩) "42").calls =
      [Call.redisGet "info:42", Call.dbQuery "42",
       Call.redisSet "info:42" "hello" (10 * Minute)] ∧
    (getInfoHandler (Env.request
      (getInfoHandler (Env.request ⟨[], none, none⟩ ⟨[("42", "hello")], none⟩) "42").rdb
      (getInfoHandler (Env.request ⟨[], none, none⟩ ⟨[("42", "hello")], none⟩) "42").db)
      "42").calls = [Call.redisGet "info:42"] ∧
    dataPayloads
      (getInfoHandler (Env.request ⟨[], none, none⟩ ⟨[("42", "hello")], none⟩) "42").w.body =
      ["hello", ""] ∧
    dataPayloads (getInfoHandler (Env.request
      (getInfoHandler (Env.request ⟨[], none, none⟩ ⟨[("42", "hello")], none⟩) "42").rdb
      (getInfoHandler (Env.request ⟨[], none, none⟩ ⟨[("42", "hello")], none⟩) "42").db)
      "42").w.body = ["hello"] ∧
    (getInfoHandler (Env.request ⟨[], none, none⟩ ⟨[("42", "hello")], none⟩) "42").w ≠
      (getInfoHandler (Env.request
        (getInfoHandler (Env.request ⟨[], none, none⟩ ⟨[("42", "hello")], none⟩) "42").rdb
        (getInfoHandler (Env.request ⟨[], none, none⟩ ⟨[("42", "hello")], none⟩) "42").db)
        "42").w := by
  decide

/-- Claim C9. Fixed time-to-live: whatever the stores hold and however they
fail, a run of the handler attempts at most one cache write, and every cache
write it attempts is under the key `"info:" ++ id` with a time-to-live of
`10 * Minute`, which is 600 seconds (600000000000 ns). -/
theorem cache_write_ttl_fixed (rdb : Redis) (db : DB) (id : String) :
    (cacheWrites (getInfoHandler (Env.request rdb db) id).calls).length ≤ 1 ∧
    (∀ c ∈ cacheWrites (getInfoHandler (Env.request rdb db) id).calls,
      c.1 = "info:" ++ id ∧ c.2.2 = 600 * Second) ∧
    600 * Second = 10 * Minute ∧ 600 * Second = 600000000000 := by
  have h10 := ten_minutes
  have hns := ten_minutes_ns
  rcases (handler_effect rdb db id).2.1 with h | ⟨v, h⟩
  · rw [h]
    refine ⟨by simp, ?_, h10.symm, by rw [← h10, hns]⟩
    intro c hc
    cases hc
  · rw [h]
    refine ⟨by simp, ?_, h10.symm, by rw [← h10, hns]⟩
    intro c hc
    rw [List.mem_singleton] at hc
    subst hc
    exact ⟨rfl, h10⟩

/-- Claim C10. Cache derived from durable: if every cache entry under a key
`"info:" ++ id` holds the value the Durable Store holds for `id`, the same is
true after a run of the handler, on every path, and the Durable Store is
unchanged by the run.  Moreover, starting from an empty cache and serving any
sequence of requests under any faults, every cache entry is a copy of a
Durable Store row under that row's key, and the rows are unchanged. -/
theorem cache_derived_from_durable (rdb : Redis) (db : DB) (id : String)
    (h : CacheDerived rdb db) :
    CacheDerived (getInfoHandler (Env.request rdb db) id).rdb
      (getInfoHandler (Env.request rdb db) id).db ∧
    (getInfoHandler (Env.request rdb db) id).db = db ∧
    ∀ (gf sf : Option String)
      (reqs : List (String × Option String × Option String × Option String)),
      CacheFromDurable (serveAll ⟨[], gf, sf⟩ db reqs).1 db ∧
      (serveAll ⟨[], gf, sf⟩ db reqs).2.rows = db.rows := by
  have hdb := (handler_effect rdb db id).1
  refine ⟨?_, hdb, ?_⟩
  · rw [hdb]
    exact handler_keeps_derived rdb db id h
  · intro gf sf reqs
    apply serveAll_keeps
    intro k v hk
    simp [Redis.lookup] at hk

/-- Witness of C10: a cache holding a copy of row `"1"`, and a request for row
`"2"`, which takes the miss path and writes the cache. -/
theorem cache_derived_from_durable_witness :
    CacheDerived ⟨[("info:1", "a", 5)], none, none⟩ ⟨[("1", "a"), ("2", "b")], none⟩ ∧
    CacheDerived
      (getInfoHandler (Env.request ⟨[("info:1", "a", 5)], none, none⟩
        ⟨[("1", "a"), ("2", "b")], none⟩) "2").rdb
      (getInfoHandler (Env.request ⟨[("info:1", "a", 5)], none, none⟩
        ⟨[("1", "a"), ("2", "b")], none⟩) "2").db :=
  have h0 : CacheDerived ⟨[("info:1", "a", 5)], none, none⟩
      ⟨[("1", "a"), ("2", "b")], none⟩ := by
    intro i u hk
    by_cases hi : i = "1"
    · subst hi
      have hu : u = "a" := by
        simpa [Redis.lookup, List.find?] using hk.symm
      subst hu
      decide
    · have hne : ¬ ("info:1" = "info:" ++ i) := fun e =>
        hi (cacheKey_injective i "1" e.symm)
      have hb : ("info:1" == "info:" ++ i) = false := beq_eq_false_iff_ne.mpr hne
      simp only [Redis.lookup, List.find?, hb] at hk
      cases hk
  ⟨h0, (cache_derived_from_durable ⟨[("info:1", "a", 5)], none, none⟩
      ⟨[("1", "a"), ("2", "b")], none⟩ "2" h0).1⟩

end GoRedisDemo
